import Mathlib

/-!
Shallow embedding of `src/check_if_online.py`, a Windows Wi-Fi auto-recovery
script, together with theorems about its connectivity-recovery flow.

Modelling conventions:
* External effects (ping subprocesses, `netsh` adapter commands, sleeps, the
  `ms-settings` launch, menu prompts, `sys.exit`) are recorded as an explicit
  trace of `Event`s, in the order the script performs them.
* The outside world is a parameter: each ping's outcome is given by a response
  function `String → Bool` (`true` iff the pinged target replied within its
  timeout, i.e. the ping subprocess exited with code 0), and each `netsh`
  invocation's exit code is a `Nat` parameter (the script never inspects it).
* `subprocess.run` is called without `check=True` everywhere in the script, so
  a nonzero exit code never raises; the `netsh` calls are made without
  `capture_output`, so their output (including error messages) goes to the
  operator's console — recorded as `outputVisible := true` on `netsh` events.
* Console text that carries the flow's final classification (the
  `"Already online"` / `"Back online after toggle"` / `"Still offline"` lines
  of `run_once`) is recorded as a `report` event; purely decorative banner and
  info lines are not modelled.
-/

namespace CheckIfOnline

/-- Configuration constant `PING_TARGETS` of the script: two IPs, success if
either replies. -/
def PING_TARGETS : List String := ["1.1.1.1", "8.8.8.8"]

/-- Configuration constant `WIFI_ADAPTER_NAME` of the script. -/
def WIFI_ADAPTER_NAME : String := "Wi-Fi"

/-- Configuration constant `POST_TOGGLE_WAIT_SECONDS` of the script. -/
def POST_TOGGLE_WAIT_SECONDS : Nat := 5

/-- The final classification of one recovery-flow invocation.  The spec calls
the third outcome both `StillOffline` (§3) and `StillFailing` (state machine /
testable properties); it corresponds to the script's
`"Still offline after one toggle attempt."` error line. -/
inductive RecoveryOutcome
  | AlreadyOnline
  | RecoveredAfterToggle
  | StillFailing
  deriving DecidableEq, Repr

/-- One observable step of the script. -/
inductive Event
  /-- A `ping` subprocess against `target`; `replied = true` iff exit code 0. -/
  | ping (target : String) (replied : Bool)
  /-- A `netsh interface set interface <adapter> admin=enabled/disabled` call.
  `exitCode` is the command's exit code (ignored by the script);
  `outputVisible` records whether the command's output, error messages
  included, reaches the operator's console (no `capture_output`). -/
  | netsh (adapter : String) (adminEnabled : Bool) (exitCode : Nat)
      (outputVisible : Bool)
  /-- A `time.sleep(seconds)` pause. -/
  | sleep (seconds : Nat)
  /-- The console line reporting the flow's outcome. -/
  | report (outcome : RecoveryOutcome)
  /-- Launch of an `ms-settings` URI. -/
  | openSettings (uri : String)
  /-- The menu prompt of `main`. -/
  | prompt
  /-- The `"Invalid choice"` warning of `main`. -/
  | warnInvalid
  /-- `ShellExecuteW(None, "runas", ...)`: relaunch of the script elevated. -/
  | relaunchElevated
  /-- `sys.exit(code)`. -/
  | exited (code : Nat)
  deriving DecidableEq, Repr

/-- Is the event a ping probe? -/
def isPing : Event → Bool
  | .ping _ _ => true
  | _ => false

/-- Is the event a `netsh` adapter command? -/
def isNetsh : Event → Bool
  | .netsh _ _ _ _ => true
  | _ => false

/-- Is the event a `netsh ... admin=disabled` command? -/
def isDisable : Event → Bool
  | .netsh _ false _ _ => true
  | _ => false

/-- Is the event a `netsh ... admin=enabled` command? -/
def isEnable : Event → Bool
  | .netsh _ true _ _ => true
  | _ => false

/-- Is the event a settings-page launch? -/
def isSettingsLaunch : Event → Bool
  | .openSettings _ => true
  | _ => false

/-- Is the event part of the recovery flow proper (probe, toggle, wait,
outcome report, or launch), as opposed to menu/elevation plumbing? -/
def isFlowEvent : Event → Bool
  | .ping _ _ => true
  | .netsh _ _ _ _ => true
  | .sleep _ => true
  | .report _ => true
  | .openSettings _ => true
  | _ => false

/-- The `for target in PING_TARGETS` loop body of `check_connectivity`,
generalised over the target list: ping each target in order; on the first
exit code 0 return `True` at once (remaining targets are not probed); if the
loop exhausts the list return `False`.  Returns the result together with the
trace of ping events actually performed. -/
def check_connectivity_on (targets : List String) (resp : String → Bool) :
    Bool × List Event :=
  match targets with
  | [] => (false, [])
  | t :: rest =>
    if resp t then
      (true, [Event.ping t true])
    else
      let r := check_connectivity_on rest resp
      (r.1, Event.ping t false :: r.2)

/-- `check_connectivity()` of the script: the loop above over the fixed
`PING_TARGETS` list. -/
def check_connectivity (resp : String → Bool) : Bool × List Event :=
  check_connectivity_on PING_TARGETS resp

/-- Every event emitted by the connectivity check is a ping. -/
theorem check_connectivity_on_ping_only (targets : List String)
    (resp : String → Bool) :
    ∀ ev ∈ (check_connectivity_on targets resp).2, isPing ev = true := by
  induction targets with
  | nil =>
    intro ev h
    simp [check_connectivity_on] at h
  | cons t rest ih =>
    intro ev h
    cases hrt : resp t with
    | true =>
      simp [check_connectivity_on, hrt] at h
      subst h
      rfl
    | false =>
      simp [check_connectivity_on, hrt] at h
      rcases h with h | h
      · subst h
        rfl
      · exact ih ev h

/-- A predicate that is false on pings counts zero in an all-ping trace. -/
theorem countP_zero_of_ping_only (l : List Event) (q : Event → Bool)
    (hl : ∀ ev ∈ l, isPing ev = true)
    (hq : ∀ ev, isPing ev = true → q ev = false) :
    l.countP q = 0 := by
  rw [List.countP_eq_zero]
  intro a ha
  simp [hq a (hl a ha)]

/-- C1: For every ordered list of probe targets, if the target at position `i`
replies within its timeout and every target before it failed, then the
connectivity check returns reachable (`true`) and its trace consists of the
failing pings of the first `i` targets followed by the single successful ping:
no target after the first successful one is evaluated (short-circuit). -/
theorem check_connectivity_short_circuit (ts : List String)
    (resp : String → Bool) (i : Nat) (hi : i < ts.length)
    (hbefore : ∀ t ∈ ts.take i, resp t = false)
    (hsucc : resp (ts.get ⟨i, hi⟩) = true) :
    (check_connectivity_on ts resp).1 = true ∧
    (check_connectivity_on ts resp).2 =
      (ts.take i).map (fun t => Event.ping t false) ++
        [Event.ping (ts.get ⟨i, hi⟩) true] := by
  induction ts generalizing i with
  | nil => exact absurd hi (by simp)
  | cons t rest ih =>
    cases i with
    | zero =>
      have ht : resp t = true := hsucc
      simp [check_connectivity_on, ht]
    | succ i =>
      have ht : resp t = false := hbefore t (by simp)
      have hi2 : i < rest.length := Nat.lt_of_succ_lt_succ hi
      have hb2 : ∀ x ∈ rest.take i, resp x = false := by
        intro x hx
        exact hbefore x (by simp [hx])
      have hs2 : resp (rest.get ⟨i, hi2⟩) = true := hsucc
      obtain ⟨h1, h2⟩ := ih i hi2 hb2 hs2
      refine ⟨?_, ?_⟩
      · simp [check_connectivity_on, ht, h1]
      · simp [check_connectivity_on, ht, h2]

/-- Witness for C1 on the script's own target list: with only `1.1.1.1`
replying, the probe reports reachable and pings exactly that one target. -/
theorem check_connectivity_short_circuit_witness :
    (check_connectivity_on PING_TARGETS (fun t => t == "1.1.1.1")).1 = true ∧
    (check_connectivity_on PING_TARGETS (fun t => t == "1.1.1.1")).2 =
      [Event.ping "1.1.1.1" true] := by
  have h := check_connectivity_short_circuit PING_TARGETS
    (fun t => t == "1.1.1.1") 0 (by decide) (by decide) (by decide)
  simpa using h

/-- C2: For every ordered list of probe targets in which every target fails to
reply, the connectivity check returns unreachable (`false`) and its trace is
one failing ping per target, in list order (each target evaluated exactly
once). -/
theorem check_connectivity_all_targets_fail (ts : List String)
    (resp : String → Bool) (h : ∀ t ∈ ts, resp t = false) :
    (check_connectivity_on ts resp).1 = false ∧
    (check_connectivity_on ts resp).2 =
      ts.map (fun t => Event.ping t false) := by
  induction ts with
  | nil => simp [check_connectivity_on]
  | cons t rest ih =>
    have ht : resp t = false := h t (by simp)
    have h2 : ∀ x ∈ rest, resp x = false := by
      intro x hx
      exact h x (by simp [hx])
    obtain ⟨h1, htr⟩ := ih h2
    refine ⟨?_, ?_⟩
    · simp [check_connectivity_on, ht, h1]
    · simp [check_connectivity_on, ht, htr]

/-- Witness for C2 on the script's own target list with no target replying. -/
theorem check_connectivity_all_targets_fail_witness :
    (check_connectivity_on PING_TARGETS (fun _ => false)).1 = false ∧
    (check_connectivity_on PING_TARGETS (fun _ => false)).2 =
      [Event.ping "1.1.1.1" false, Event.ping "8.8.8.8" false] := by
  have h := check_connectivity_all_targets_fail PING_TARGETS (fun _ => false)
    (by intro t _; rfl)
  simpa using h

/-- `toggle_wifi_once()` of the script: `netsh ... admin=disabled`, a 2-second
pause, then `netsh ... admin=enabled`.  The two `netsh` exit codes come from
the environment; the script ignores them, and since `capture_output` is not
passed, the commands' output (error messages included) is visible on the
console. -/
def toggle_wifi_once (disableCode enableCode : Nat) : List Event :=
  [Event.netsh WIFI_ADAPTER_NAME false disableCode true,
   Event.sleep 2,
   Event.netsh WIFI_ADAPTER_NAME true enableCode true]

/-- `countdown(seconds)` of the script: `seconds` one-second sleeps (the
printed countdown digits are not modelled). -/
def countdown (seconds : Nat) : List Event :=
  List.replicate seconds (Event.sleep 1)

/-- `open_hotspot_settings()` of the script. -/
def open_hotspot_settings : List Event :=
  [Event.openSettings "ms-settings:network-mobilehotspot"]

/-- `run_once()` of the script: first connectivity check; if reachable, report
and stop; otherwise toggle the adapter once, wait, re-check, and on success
report and open the hotspot settings page.  `resp1`/`resp2` give the ping
outcomes of the first/second probe; `disableCode`/`enableCode` the `netsh`
exit codes.  Returns the outcome classification and the event trace. -/
def run_once (resp1 resp2 : String → Bool) (disableCode enableCode : Nat) :
    RecoveryOutcome × List Event :=
  let first := check_connectivity resp1
  if first.1 then
    (RecoveryOutcome.AlreadyOnline,
      first.2 ++ [Event.report RecoveryOutcome.AlreadyOnline])
  else
    let toggled := toggle_wifi_once disableCode enableCode
    let waited := countdown POST_TOGGLE_WAIT_SECONDS
    let second := check_connectivity resp2
    if second.1 then
      (RecoveryOutcome.RecoveredAfterToggle,
        first.2 ++ toggled ++ waited ++ second.2 ++
          [Event.report RecoveryOutcome.RecoveredAfterToggle] ++
          open_hotspot_settings)
    else
      (RecoveryOutcome.StillFailing,
        first.2 ++ toggled ++ waited ++ second.2 ++
          [Event.report RecoveryOutcome.StillFailing])

/-- A predicate that is false on every ping counts zero in a connectivity
check's trace. -/
theorem check_countP_eq_zero (targets : List String) (resp : String → Bool)
    (q : Event → Bool) (hq : ∀ t b, q (Event.ping t b) = false) :
    List.countP q (check_connectivity_on targets resp).2 = 0 := by
  refine countP_zero_of_ping_only _ _
    (check_connectivity_on_ping_only targets resp) ?_
  intro ev hev
  cases ev
  case ping t b => exact hq t b
  all_goals simp [isPing] at hev

/-- C3: Whenever the first connectivity probe reports reachable, `run_once`
reports `AlreadyOnline`, its whole trace is the first probe's pings plus that
report — so it performs no adapter command, no settings launch, no sleep, and
no second probe. -/
theorem run_once_already_online (resp1 resp2 : String → Bool)
    (d e : Nat) (h : (check_connectivity resp1).1 = true) :
    (run_once resp1 resp2 d e).1 = RecoveryOutcome.AlreadyOnline ∧
    (run_once resp1 resp2 d e).2 =
      (check_connectivity resp1).2 ++
        [Event.report RecoveryOutcome.AlreadyOnline] ∧
    List.countP isNetsh (run_once resp1 resp2 d e).2 = 0 ∧
    List.countP isSettingsLaunch (run_once resp1 resp2 d e).2 = 0 := by
  have htr : run_once resp1 resp2 d e =
      (RecoveryOutcome.AlreadyOnline,
        (check_connectivity resp1).2 ++
          [Event.report RecoveryOutcome.AlreadyOnline]) := by
    simp [run_once, h]
  refine ⟨by rw [htr], by rw [htr], ?_, ?_⟩
  · rw [htr]
    simp only [check_connectivity, List.countP_append]
    rw [check_countP_eq_zero PING_TARGETS resp1 isNetsh (by intro t b; rfl)]
    decide
  · rw [htr]
    simp only [check_connectivity, List.countP_append]
    rw [check_countP_eq_zero PING_TARGETS resp1 isSettingsLaunch
      (by intro t b; rfl)]
    decide

/-- Witness for C3: with every target replying on the first probe, `run_once`
is already online and performs only pings and the report. -/
theorem run_once_already_online_witness :
    (run_once (fun _ => true) (fun _ => false) 0 0).1 =
      RecoveryOutcome.AlreadyOnline ∧
    (run_once (fun _ => true) (fun _ => false) 0 0).2 =
      [Event.ping "1.1.1.1" true,
       Event.report RecoveryOutcome.AlreadyOnline] := by
  have h := run_once_already_online (fun _ => true) (fun _ => false) 0 0
    (by decide)
  refine ⟨h.1, ?_⟩
  rw [h.2.1]
  decide

/-- A predicate that is false on one-second sleeps counts zero in a countdown
trace. -/
theorem countdown_countP_eq_zero (n : Nat) (q : Event → Bool)
    (hq : q (Event.sleep 1) = false) : List.countP q (countdown n) = 0 := by
  rw [List.countP_eq_zero]
  intro a ha
  have h := List.eq_of_mem_replicate (by simpa [countdown] using ha)
  subst h
  simp [hq]

/-- C4: Whenever the first probe reports unreachable and the second reports
reachable, `run_once` reports `RecoveredAfterToggle` and its trace is exactly:
the first probe's pings, then one `admin=disabled` command, a 2-second pause,
one `admin=enabled` command (one disable-then-enable pair, disable strictly
first), then the configured `POST_TOGGLE_WAIT_SECONDS` one-second waits before
the second probe's pings, the report, and exactly one settings launch. -/
theorem run_once_recovered_after_toggle (resp1 resp2 : String → Bool)
    (d e : Nat)
    (h1 : (check_connectivity resp1).1 = false)
    (h2 : (check_connectivity resp2).1 = true) :
    (run_once resp1 resp2 d e).1 = RecoveryOutcome.RecoveredAfterToggle ∧
    (run_once resp1 resp2 d e).2 =
      (check_connectivity resp1).2 ++
        [Event.netsh WIFI_ADAPTER_NAME false d true,
         Event.sleep 2,
         Event.netsh WIFI_ADAPTER_NAME true e true] ++
        List.replicate POST_TOGGLE_WAIT_SECONDS (Event.sleep 1) ++
        (check_connectivity resp2).2 ++
        [Event.report RecoveryOutcome.RecoveredAfterToggle,
         Event.openSettings "ms-settings:network-mobilehotspot"] ∧
    List.countP isDisable (run_once resp1 resp2 d e).2 = 1 ∧
    List.countP isEnable (run_once resp1 resp2 d e).2 = 1 ∧
    List.countP isSettingsLaunch (run_once resp1 resp2 d e).2 = 1 := by
  have htr : run_once resp1 resp2 d e =
      (RecoveryOutcome.RecoveredAfterToggle,
        (check_connectivity resp1).2 ++ toggle_wifi_once d e ++
          countdown POST_TOGGLE_WAIT_SECONDS ++ (check_connectivity resp2).2 ++
          [Event.report RecoveryOutcome.RecoveredAfterToggle] ++
          open_hotspot_settings) := by
    simp [run_once, h1, h2]
  refine ⟨by rw [htr], ?_, ?_, ?_, ?_⟩
  · rw [htr]
    simp [toggle_wifi_once, countdown, open_hotspot_settings]
  · rw [htr]
    simp [check_connectivity, List.countP_append,
      check_countP_eq_zero PING_TARGETS resp1 isDisable (fun t b => rfl),
      check_countP_eq_zero PING_TARGETS resp2 isDisable (fun t b => rfl),
      countdown_countP_eq_zero POST_TOGGLE_WAIT_SECONDS isDisable rfl,
      toggle_wifi_once, open_hotspot_settings, List.countP_cons, isDisable]
  · rw [htr]
    simp [check_connectivity, List.countP_append,
      check_countP_eq_zero PING_TARGETS resp1 isEnable (fun t b => rfl),
      check_countP_eq_zero PING_TARGETS resp2 isEnable (fun t b => rfl),
      countdown_countP_eq_zero POST_TOGGLE_WAIT_SECONDS isEnable rfl,
      toggle_wifi_once, open_hotspot_settings, List.countP_cons, isEnable]
  · rw [htr]
    simp [check_connectivity, List.countP_append,
      check_countP_eq_zero PING_TARGETS resp1 isSettingsLaunch
        (fun t b => rfl),
      check_countP_eq_zero PING_TARGETS resp2 isSettingsLaunch
        (fun t b => rfl),
      countdown_countP_eq_zero POST_TOGGLE_WAIT_SECONDS isSettingsLaunch rfl,
      toggle_wifi_once, open_hotspot_settings, List.countP_cons,
      isSettingsLaunch]

/-- Witness for C4: both targets fail first, `1.1.1.1` replies on the
re-check; the flow recovers after exactly one toggle cycle and one settings
launch. -/
theorem run_once_recovered_after_toggle_witness :
    (run_once (fun _ => false) (fun t => t == "1.1.1.1") 0 0).1 =
      RecoveryOutcome.RecoveredAfterToggle ∧
    List.countP isDisable
      (run_once (fun _ => false) (fun t => t == "1.1.1.1") 0 0).2 = 1 ∧
    List.countP isSettingsLaunch
      (run_once (fun _ => false) (fun t => t == "1.1.1.1") 0 0).2 = 1 := by
  have h := run_once_recovered_after_toggle (fun _ => false)
    (fun t => t == "1.1.1.1") 0 0 (by decide) (by decide)
  exact ⟨h.1, h.2.2.1, h.2.2.2.2⟩

/-- C5: Whenever both probes report unreachable, `run_once` reports
`StillFailing`, performs exactly one disable-then-enable pair, launches no
settings page, and its full trace shows a single toggle cycle with no retry
beyond it. -/
theorem run_once_still_failing (resp1 resp2 : String → Bool)
    (d e : Nat)
    (h1 : (check_connectivity resp1).1 = false)
    (h2 : (check_connectivity resp2).1 = false) :
    (run_once resp1 resp2 d e).1 = RecoveryOutcome.StillFailing ∧
    (run_once resp1 resp2 d e).2 =
      (check_connectivity resp1).2 ++
        [Event.netsh WIFI_ADAPTER_NAME false d true,
         Event.sleep 2,
         Event.netsh WIFI_ADAPTER_NAME true e true] ++
        List.replicate POST_TOGGLE_WAIT_SECONDS (Event.sleep 1) ++
        (check_connectivity resp2).2 ++
        [Event.report RecoveryOutcome.StillFailing] ∧
    List.countP isDisable (run_once resp1 resp2 d e).2 = 1 ∧
    List.countP isEnable (run_once resp1 resp2 d e).2 = 1 ∧
    List.countP isSettingsLaunch (run_once resp1 resp2 d e).2 = 0 := by
  have htr : run_once resp1 resp2 d e =
      (RecoveryOutcome.StillFailing,
        (check_connectivity resp1).2 ++ toggle_wifi_once d e ++
          countdown POST_TOGGLE_WAIT_SECONDS ++ (check_connectivity resp2).2 ++
          [Event.report RecoveryOutcome.StillFailing]) := by
    simp [run_once, h1, h2]
  refine ⟨by rw [htr], ?_, ?_, ?_, ?_⟩
  · rw [htr]
    simp [toggle_wifi_once, countdown]
  · rw [htr]
    simp [check_connectivity, List.countP_append,
      check_countP_eq_zero PING_TARGETS resp1 isDisable (fun t b => rfl),
      check_countP_eq_zero PING_TARGETS resp2 isDisable (fun t b => rfl),
      countdown_countP_eq_zero POST_TOGGLE_WAIT_SECONDS isDisable rfl,
      toggle_wifi_once, open_hotspot_settings, List.countP_cons, isDisable]
  · rw [htr]
    simp [check_connectivity, List.countP_append,
      check_countP_eq_zero PING_TARGETS resp1 isEnable (fun t b => rfl),
      check_countP_eq_zero PING_TARGETS resp2 isEnable (fun t b => rfl),
      countdown_countP_eq_zero POST_TOGGLE_WAIT_SECONDS isEnable rfl,
      toggle_wifi_once, open_hotspot_settings, List.countP_cons, isEnable]
  · rw [htr]
    simp [check_connectivity, List.countP_append,
      check_countP_eq_zero PING_TARGETS resp1 isSettingsLaunch
        (fun t b => rfl),
      check_countP_eq_zero PING_TARGETS resp2 isSettingsLaunch
        (fun t b => rfl),
      countdown_countP_eq_zero POST_TOGGLE_WAIT_SECONDS isSettingsLaunch rfl,
      toggle_wifi_once, open_hotspot_settings, List.countP_cons,
      isSettingsLaunch]

/-- Witness for C5: no target ever replies; one toggle cycle, no settings
launch, outcome `StillFailing`. -/
theorem run_once_still_failing_witness :
    (run_once (fun _ => false) (fun _ => false) 0 0).1 =
      RecoveryOutcome.StillFailing ∧
    List.countP isDisable
      (run_once (fun _ => false) (fun _ => false) 0 0).2 = 1 ∧
    List.countP isSettingsLaunch
      (run_once (fun _ => false) (fun _ => false) 0 0).2 = 0 := by
  have h := run_once_still_failing (fun _ => false) (fun _ => false) 0 0
    (by decide) (by decide)
  exact ⟨h.1, h.2.2.1, h.2.2.2.2⟩

/-- C6: The script never inspects the `netsh` exit codes: whatever exit codes
`d`, `e` the two adapter commands return (permission denied, interface not
found, ...), the commands are run with their output visible to the operator
(`outputVisible = true` — `capture_output` is not passed, so the error text
reaches the console), `run_once` does not crash (`subprocess.run` without
`check=True` never raises on a nonzero exit code), the outcome is the same as
with succeeding commands, and the flow proceeds to the same wait-and-recheck
continuation. -/
theorem toggle_failure_nonfatal (resp1 resp2 : String → Bool) (d e : Nat)
    (h1 : (check_connectivity resp1).1 = false) :
    (run_once resp1 resp2 d e).1 = (run_once resp1 resp2 0 0).1 ∧
    toggle_wifi_once d e =
      [Event.netsh WIFI_ADAPTER_NAME false d true,
       Event.sleep 2,
       Event.netsh WIFI_ADAPTER_NAME true e true] ∧
    ∃ tail,
      (run_once resp1 resp2 d e).2 =
        (check_connectivity resp1).2 ++ toggle_wifi_once d e ++
          countdown POST_TOGGLE_WAIT_SECONDS ++
          (check_connectivity resp2).2 ++ tail ∧
      (run_once resp1 resp2 0 0).2 =
        (check_connectivity resp1).2 ++ toggle_wifi_once 0 0 ++
          countdown POST_TOGGLE_WAIT_SECONDS ++
          (check_connectivity resp2).2 ++ tail := by
  cases h2 : (check_connectivity resp2).1 with
  | true =>
    refine ⟨by simp [run_once, h1, h2], rfl,
      [Event.report RecoveryOutcome.RecoveredAfterToggle,
       Event.openSettings "ms-settings:network-mobilehotspot"], ?_, ?_⟩
    · simp [run_once, h1, h2, open_hotspot_settings]
    · simp [run_once, h1, h2, open_hotspot_settings]
  | false =>
    refine ⟨by simp [run_once, h1, h2], rfl,
      [Event.report RecoveryOutcome.StillFailing], ?_, ?_⟩
    · simp [run_once, h1, h2]
    · simp [run_once, h1, h2]

/-- Witness for C6: failing `netsh` commands (exit codes 7 and 9) leave the
outcome unchanged. -/
theorem toggle_failure_nonfatal_witness :
    (run_once (fun _ => false) (fun _ => true) 7 9).1 =
      (run_once (fun _ => false) (fun _ => true) 0 0).1 :=
  (toggle_failure_nonfatal (fun _ => false) (fun _ => true) 7 9 (by decide)).1

/-- Embedding of Python `str.strip()`'s whitespace test for the characters
relevant here (ASCII whitespace; further Unicode space characters are not
modelled). -/
def pyIsSpace (c : Char) : Bool :=
  c == ' ' || c == '\t' || c == '\n' || c == '\r' || c == '\x0b' || c == '\x0c'

/-- Embedding of Python `str.strip()`: drop whitespace from both ends. -/
def pyStrip (s : String) : String :=
  String.mk (((s.data.dropWhile pyIsSpace).reverse.dropWhile pyIsSpace).reverse)

/-- Embedding of Python `str.lower()` on one character (ASCII-faithful). -/
def pyLowerChar (c : Char) : Char :=
  if 'A' ≤ c ∧ c ≤ 'Z' then Char.ofNat (c.toNat + 32) else c

/-- Embedding of Python `str.lower()` (ASCII-faithful). -/
def pyLower (s : String) : String :=
  String.mk (s.data.map pyLowerChar)

/-- The environment of one recovery-flow invocation: ping outcomes of the two
probes and exit codes of the two `netsh` commands. -/
structure RunEnv where
  resp1 : String → Bool
  resp2 : String → Bool
  disableCode : Nat
  enableCode : Nat

/-- A fixed environment used by concrete witnesses. -/
def constRunEnv : RunEnv :=
  ⟨fun _ => true, fun _ => true, 0, 0⟩

/-- The `while True` menu loop of `main()`, driven by the (finite prefix of
the) operator's input stream: normalize the choice with
`.strip().lower()`; on `"r"` execute `run_once` (the `k`-th invocation uses
the `k`-th environment), on `"e"` print goodbye and `sys.exit(0)`, otherwise
warn and re-prompt.  An exhausted input list means the program is still
blocked in `input()`; no further events are recorded. -/
def mainLoop (env : Nat → RunEnv) (k : Nat) : List String → List Event
  | [] => []
  | s :: rest =>
    let choice := pyLower (pyStrip s)
    if choice = "r" then
      Event.prompt ::
        ((run_once (env k).resp1 (env k).resp2 (env k).disableCode
            (env k).enableCode).2 ++ mainLoop env (k + 1) rest)
    else if choice = "e" then
      [Event.prompt, Event.exited 0]
    else
      Event.prompt :: Event.warnInvalid :: mainLoop env k rest

/-- `ensure_admin()` of the script.  `adminCheck` is the result of
`IsUserAnAdmin()` (`none` models the call raising, which the script treats as
not-admin).  Returns the events performed and whether execution continues
past the call (`sys.exit(0)` after the elevated relaunch stops it). -/
def ensure_admin (adminCheck : Option Bool) : List Event × Bool :=
  if adminCheck.getD false then
    ([], true)
  else
    ([Event.relaunchElevated, Event.exited 0], false)

/-- `main()` of the script: privilege check first; only when it confirms
elevation does the menu loop run. -/
def main (adminCheck : Option Bool) (env : Nat → RunEnv)
    (inputs : List String) : List Event :=
  let a := ensure_admin adminCheck
  if a.2 then a.1 ++ mainLoop env 0 inputs else a.1

/-- C7: At the menu, an input whose normalized form is `"e"` terminates the
process normally with exit code 0 (nothing runs after it); an input whose
normalized form is neither `"r"` nor `"e"` only adds a warning and a
re-prompt — the rest of the trace is unchanged, and no flow event (probe,
toggle, wait, report, or launch) is performed for it. -/
theorem menu_exit_and_invalid_input (env : Nat → RunEnv) (k : Nat)
    (s : String) (rest : List String) :
    (pyLower (pyStrip s) = "e" →
      mainLoop env k (s :: rest) = [Event.prompt, Event.exited 0]) ∧
    (pyLower (pyStrip s) ≠ "r" → pyLower (pyStrip s) ≠ "e" →
      mainLoop env k (s :: rest) =
        Event.prompt :: Event.warnInvalid :: mainLoop env k rest ∧
      List.countP isFlowEvent (mainLoop env k (s :: rest)) =
        List.countP isFlowEvent (mainLoop env k rest)) := by
  constructor
  · intro h
    simp [mainLoop, h]
  · intro hr he
    have h1 : mainLoop env k (s :: rest) =
        Event.prompt :: Event.warnInvalid :: mainLoop env k rest := by
      simp [mainLoop, hr, he]
    refine ⟨h1, ?_⟩
    rw [h1]
    simp [List.countP_cons, isFlowEvent]

/-- Witness for C7: input `"e"` exits with code 0; input `"x"` only warns. -/
theorem menu_exit_and_invalid_input_witness :
    mainLoop (fun _ => constRunEnv) 0 ["e"] =
      [Event.prompt, Event.exited 0] ∧
    mainLoop (fun _ => constRunEnv) 0 ["x"] =
      Event.prompt :: Event.warnInvalid ::
        mainLoop (fun _ => constRunEnv) 0 [] := by
  constructor
  · exact (menu_exit_and_invalid_input (fun _ => constRunEnv) 0 "e" []).1
      (by decide)
  · exact ((menu_exit_and_invalid_input (fun _ => constRunEnv) 0 "x" []).2
      (by decide) (by decide)).1

/-- C8: No recovery-flow logic runs before elevation is confirmed: whenever
the admin check does not confirm elevation (it returns false or raises), the
whole execution is the elevated relaunch followed by `sys.exit(0)`; and any
execution of `main` containing a flow event is one where the admin check
succeeded. -/
theorem elevation_before_flow (adminCheck : Option Bool) (env : Nat → RunEnv)
    (inputs : List String) :
    (adminCheck.getD false = false →
      main adminCheck env inputs =
        [Event.relaunchElevated, Event.exited 0]) ∧
    (∀ ev ∈ main adminCheck env inputs, isFlowEvent ev = true →
      adminCheck.getD false = true) := by
  cases h : adminCheck.getD false with
  | false =>
    have hm : main adminCheck env inputs =
        [Event.relaunchElevated, Event.exited 0] := by
      simp [main, ensure_admin, h]
    refine ⟨fun _ => hm, ?_⟩
    intro ev hev hflow
    rw [hm] at hev
    simp at hev
    rcases hev with h1 | h1 <;> subst h1 <;> simp [isFlowEvent] at hflow
  | true =>
    exact ⟨fun hc => absurd hc (by decide), fun _ _ _ => rfl⟩

/-- Witness for C8: a non-elevated process relaunches and exits before any
flow logic. -/
theorem elevation_before_flow_witness :
    main (some false) (fun _ => constRunEnv) ["r"] =
      [Event.relaunchElevated, Event.exited 0] :=
  (elevation_before_flow (some false) (fun _ => constRunEnv) ["r"]).1
    (by decide)

/-- Each `run_once` invocation performs at most one disable, one enable, and
one settings launch, in every branch of the flow. -/
theorem run_once_at_most_one_toggle (resp1 resp2 : String → Bool)
    (d e : Nat) :
    List.countP isDisable (run_once resp1 resp2 d e).2 ≤ 1 ∧
    List.countP isEnable (run_once resp1 resp2 d e).2 ≤ 1 ∧
    List.countP isSettingsLaunch (run_once resp1 resp2 d e).2 ≤ 1 := by
  cases h1 : (check_connectivity resp1).1 with
  | true =>
    have htr : (run_once resp1 resp2 d e).2 =
        (check_connectivity resp1).2 ++
          [Event.report RecoveryOutcome.AlreadyOnline] := by
      simp [run_once, h1]
    refine ⟨?_, ?_, ?_⟩
    all_goals
      rw [htr]
      simp [check_connectivity, List.countP_append,
        check_countP_eq_zero PING_TARGETS resp1 isDisable (fun t b => rfl),
        check_countP_eq_zero PING_TARGETS resp1 isEnable (fun t b => rfl),
        check_countP_eq_zero PING_TARGETS resp1 isSettingsLaunch
          (fun t b => rfl),
        List.countP_cons, isDisable, isEnable, isSettingsLaunch]
  | false =>
    cases h2 : (check_connectivity resp2).1 with
    | true =>
      have htr : (run_once resp1 resp2 d e).2 =
          (check_connectivity resp1).2 ++ toggle_wifi_once d e ++
            countdown POST_TOGGLE_WAIT_SECONDS ++
            (check_connectivity resp2).2 ++
            [Event.report RecoveryOutcome.RecoveredAfterToggle] ++
            open_hotspot_settings := by
        simp [run_once, h1, h2]
      refine ⟨?_, ?_, ?_⟩
      all_goals
        rw [htr]
        simp [check_connectivity, List.countP_append,
          check_countP_eq_zero PING_TARGETS resp1 isDisable (fun t b => rfl),
          check_countP_eq_zero PING_TARGETS resp1 isEnable (fun t b => rfl),
          check_countP_eq_zero PING_TARGETS resp1 isSettingsLaunch
            (fun t b => rfl),
          check_countP_eq_zero PING_TARGETS resp2 isDisable (fun t b => rfl),
          check_countP_eq_zero PING_TARGETS resp2 isEnable (fun t b => rfl),
          check_countP_eq_zero PING_TARGETS resp2 isSettingsLaunch
            (fun t b => rfl),
          countdown_countP_eq_zero POST_TOGGLE_WAIT_SECONDS isDisable rfl,
          countdown_countP_eq_zero POST_TOGGLE_WAIT_SECONDS isEnable rfl,
          countdown_countP_eq_zero POST_TOGGLE_WAIT_SECONDS isSettingsLaunch
            rfl,
          toggle_wifi_once, open_hotspot_settings, List.countP_cons,
          isDisable, isEnable, isSettingsLaunch]
    | false =>
      have htr : (run_once resp1 resp2 d e).2 =
          (check_connectivity resp1).2 ++ toggle_wifi_once d e ++
            countdown POST_TOGGLE_WAIT_SECONDS ++
            (check_connectivity resp2).2 ++
            [Event.report RecoveryOutcome.StillFailing] := by
        simp [run_once, h1, h2]
      refine ⟨?_, ?_, ?_⟩
      all_goals
        rw [htr]
        simp [check_connectivity, List.countP_append,
          check_countP_eq_zero PING_TARGETS resp1 isDisable (fun t b => rfl),
          check_countP_eq_zero PING_TARGETS resp1 isEnable (fun t b => rfl),
          check_countP_eq_zero PING_TARGETS resp1 isSettingsLaunch
            (fun t b => rfl),
          check_countP_eq_zero PING_TARGETS resp2 isDisable (fun t b => rfl),
          check_countP_eq_zero PING_TARGETS resp2 isEnable (fun t b => rfl),
          check_countP_eq_zero PING_TARGETS resp2 isSettingsLaunch
            (fun t b => rfl),
          countdown_countP_eq_zero POST_TOGGLE_WAIT_SECONDS isDisable rfl,
          countdown_countP_eq_zero POST_TOGGLE_WAIT_SECONDS isEnable rfl,
          countdown_countP_eq_zero POST_TOGGLE_WAIT_SECONDS isSettingsLaunch
            rfl,
          toggle_wifi_once, List.countP_cons,
          isDisable, isEnable, isSettingsLaunch]

/-- C9: With a fixed deterministic environment, two sequential menu-driven
invocations of the flow produce identical traces (hence identical outcome
reports), and each invocation performs at most one disable, one enable, and
one settings launch. -/
theorem run_twice_deterministic_single_toggle (E : RunEnv) :
    mainLoop (fun _ => E) 0 ["r", "r"] =
      (Event.prompt ::
        (run_once E.resp1 E.resp2 E.disableCode E.enableCode).2) ++
      (Event.prompt ::
        (run_once E.resp1 E.resp2 E.disableCode E.enableCode).2) ∧
    List.countP isDisable
      (run_once E.resp1 E.resp2 E.disableCode E.enableCode).2 ≤ 1 ∧
    List.countP isEnable
      (run_once E.resp1 E.resp2 E.disableCode E.enableCode).2 ≤ 1 ∧
    List.countP isSettingsLaunch
      (run_once E.resp1 E.resp2 E.disableCode E.enableCode).2 ≤ 1 := by
  have hcount := run_once_at_most_one_toggle E.resp1 E.resp2 E.disableCode
    E.enableCode
  refine ⟨?_, hcount.1, hcount.2.1, hcount.2.2⟩
  have hr : pyLower (pyStrip "r") = "r" := by decide
  simp [mainLoop, hr]

/-- C10: The menu choice is matched on the input's `.strip().lower()` normal
form: any input normalizing to `"r"` behaves exactly like the input `"r"`,
and any input normalizing to `"e"` behaves exactly like `"e"`. -/
theorem menu_input_normalization (env : Nat → RunEnv) (k : Nat)
    (rest : List String) (s : String) :
    (pyLower (pyStrip s) = "r" →
      mainLoop env k (s :: rest) = mainLoop env k ("r" :: rest)) ∧
    (pyLower (pyStrip s) = "e" →
      mainLoop env k (s :: rest) = mainLoop env k ("e" :: rest)) := by
  constructor
  · intro h
    have hr : pyLower (pyStrip "r") = "r" := by decide
    simp [mainLoop, h, hr]
  · intro h
    have he : pyLower (pyStrip "e") = "e" := by decide
    simp [mainLoop, h, he]

/-- Witness for C10: `" r "` and `"R"` are accepted like `"r"`, and `"E"`
like `"e"`. -/
theorem menu_input_normalization_witness :
    mainLoop (fun _ => constRunEnv) 0 [" r "] =
      mainLoop (fun _ => constRunEnv) 0 ["r"] ∧
    mainLoop (fun _ => constRunEnv) 0 ["R"] =
      mainLoop (fun _ => constRunEnv) 0 ["r"] ∧
    mainLoop (fun _ => constRunEnv) 0 ["E"] =
      mainLoop (fun _ => constRunEnv) 0 ["e"] := by
  refine ⟨?_, ?_, ?_⟩
  · exact (menu_input_normalization (fun _ => constRunEnv) 0 [] " r ").1
      (by decide)
  · exact (menu_input_normalization (fun _ => constRunEnv) 0 [] "R").1
      (by decide)
  · exact (menu_input_normalization (fun _ => constRunEnv) 0 [] "E").2
      (by decide)

end CheckIfOnline
